import Mathlib

/-!
Verification development for the court-case monitoring bot
(threat classification and deduplicated-notification pipeline).

Python strings are modelled as `List Char`; Python's substring test
`needle in haystack` is list-infix; Python's lexicographic string order
is `strLt`; machine text operations (`str.lower`, `str.strip`,
`str.lstrip('0')`) are modelled character-wise over the ASCII and
Cyrillic ranges the program manipulates.
-/

namespace OpenDataBot

/-- Python strings, modelled as lists of characters. -/
abbrev Str := List Char

/-- Python's whitespace test for the default `str.strip()` / regex `\s`,
over the ASCII whitespace characters (space, tab, LF, VT, FF, CR). -/
def pySpace (c : Char) : Bool :=
  decide (c.toNat = 32 ∨ c.toNat = 9 ∨ c.toNat = 10 ∨ c.toNat = 11 ∨
          c.toNat = 12 ∨ c.toNat = 13)

/-- Regex `\d`: a decimal digit `0`-`9`. -/
def isDig (c : Char) : Bool :=
  decide (48 ≤ c.toNat ∧ c.toNat ≤ 57)

/-- The character class `[А-Яа-яІіЇїЄєҐґЦц]` of
`Settings.WORKSECTION_CASE_PATTERN` (settings.py:18): Cyrillic А-Я
(U+0410-U+042F), а-я (U+0430-U+044F), and the Ukrainian letters
І і Ї ї Є є Ґ ґ (Ц and ц already lie inside the two ranges). -/
def isCaseSuffixChar (c : Char) : Bool :=
  decide ((0x410 ≤ c.toNat ∧ c.toNat ≤ 0x44F) ∨
          c.toNat = 0x406 ∨ c.toNat = 0x456 ∨ c.toNat = 0x407 ∨
          c.toNat = 0x457 ∨ c.toNat = 0x404 ∨ c.toNat = 0x454 ∨
          c.toNat = 0x490 ∨ c.toNat = 0x491)

/-- Python `str.lower()` restricted to the character ranges this program
manipulates: ASCII `A`-`Z`, Cyrillic `А`-`Я` (U+0410-U+042F, +0x20),
the block U+0400-U+040F (which contains Ukrainian `Є І Ї`, +0x50), and
`Ґ` (U+0490 → U+0491).  Other characters are left unchanged. -/
def pyLowerChar (c : Char) : Char :=
  if 65 ≤ c.toNat ∧ c.toNat ≤ 90 then Char.ofNat (c.toNat + 32)
  else if 0x410 ≤ c.toNat ∧ c.toNat ≤ 0x42F then Char.ofNat (c.toNat + 32)
  else if 0x400 ≤ c.toNat ∧ c.toNat ≤ 0x40F then Char.ofNat (c.toNat + 80)
  else if c.toNat = 0x490 then Char.ofNat 0x491
  else c

/-- Python `s.lower()` on a whole string. -/
def pyLower (s : Str) : Str := s.map pyLowerChar

/-- Python's substring test `needle in haystack` on strings. -/
def pyIn (needle haystack : Str) : Bool := decide (needle <:+: haystack)

/-- Python `str.strip()`: remove leading and trailing whitespace. -/
def pyStrip (s : Str) : Str :=
  ((s.dropWhile pySpace).reverse.dropWhile pySpace).reverse

/-- Python `str.lstrip('0')`: drop leading zero characters
(EDRPOU normalization in monitoring.py:105,130). -/
def lstrip0 (s : Str) : Str := s.dropWhile (fun c => c = '0')

/-- Python lexicographic `<` on strings (code-point by code-point,
a proper prefix is smaller). -/
def strLt : Str → Str → Bool
  | [], [] => false
  | [], _ :: _ => true
  | _ :: _, [] => false
  | a :: as, b :: bs =>
      if a.toNat < b.toNat then true
      else if b.toNat < a.toNat then false
      else strLt as bs

/-- Python `<=` on strings. -/
def strLe (a b : Str) : Bool := !(strLt b a)

/-- Truthiness of a Python optional string: `None` and `''` are falsy. -/
def truthyOpt : Option Str → Bool
  | none => false
  | some s => !(s.isEmpty)

/-- Python `a or b` for two optional strings (falsy left operand
selects the right operand). -/
def pyOrOpt (a b : Option Str) : Option Str :=
  match a with
  | none => b
  | some s => if s.isEmpty then b else some s

/-- Python `(a or b)` collapsed to a string with default `''`
(the `x or y or ''` idiom in threat_analyzer.py:38,56,57). -/
def orElseStr (a : Option Str) (b : Str) : Str :=
  match a with
  | none => b
  | some s => if s.isEmpty then b else s

/-! ## Case number normalizer (src/utils/case_normalizer.py) -/

/-- `re.sub(r'^[№#\s]+', '', s)`: remove the leading run of case-marker
symbols and whitespace (case_normalizer.py:19). -/
def dropMarkerChars (s : Str) : Str :=
  s.dropWhile (fun c => c == '№' || c == '#' || pySpace c)

/-- `re.sub(r'^справа\s*', '', s, flags=re.IGNORECASE)`: remove a leading
word "справа" (case-insensitively) and the whitespace after it
(case_normalizer.py:20). -/
def dropSpravaMarker (s : Str) : Str :=
  if (s.take 6).map pyLowerChar = "справа".data
  then (s.drop 6).dropWhile pySpace
  else s

/-- The attempt of `re.search` with the fixed default pattern
`(\d{3,4}/\d+/\d{2}(?:-[А-Яа-яІіЇїЄєҐґЦц]+)?)` (settings.py:18) at one
start position, with Python's greedy-backtracking semantics, which for
this pattern are deterministic: `\d{3,4}` succeeds iff the maximal digit
run has length 3 or 4 and is followed by `/`; `\d+` takes the maximal
digit run (which must end at the next `/`); `\d{2}` takes exactly two
digits; the optional suffix group takes `-` plus a maximal nonempty run
of suffix-class letters if present, else matches empty.  Returns the
text of group 1 (the whole pattern) on success.
The optional group `(?:-[А-Яа-яІіЇїЄєҐґЦц]+)?` at the end of the
pattern is `matchSuffix`: greedy, it matches `-` plus the maximal
nonempty run of suffix-class letters when one starts here, else matches
the empty string. -/
def matchSuffix (r5 : Str) : Str :=
  match r5 with
  | '-' :: r6 =>
    if 1 ≤ (r6.takeWhile isCaseSuffixChar).length then
      '-' :: r6.takeWhile isCaseSuffixChar
    else []
  | _ => []

def matchAt (l : Str) : Option Str :=
  if (l.takeWhile isDig).length = 3 ∨ (l.takeWhile isDig).length = 4 then
    match l.dropWhile isDig with
    | '/' :: r2 =>
      if 1 ≤ (r2.takeWhile isDig).length then
        match r2.dropWhile isDig with
        | '/' :: a :: b :: r5 =>
          if isDig a && isDig b then
            some (l.takeWhile isDig ++
              '/' :: (r2.takeWhile isDig ++ ['/', a, b]) ++ matchSuffix r5)
          else none
        | _ => none
      else none
    | _ => none
  else none

/-- `re.search(pattern, s)`: try `matchAt` at every start position from
the left and return the first (leftmost) match. -/
def pySearch : Str → Option Str
  | [] => matchAt []
  | c :: t =>
    match matchAt (c :: t) with
    | some m => some m
    | none => pySearch t

/-- `normalize_case_number` (case_normalizer.py:6-29): `None` on empty
input; otherwise strip, remove the leading markers, and return the first
match of the case-number pattern (group 1), or `None` if no match. -/
def normalize_case_number (raw : Str) : Option Str :=
  if raw = [] then none
  else pySearch (dropSpravaMarker (dropMarkerChars (pyStrip raw)))

/-- `generate_case_key` (case_normalizer.py:53-67): prefer the stable
case id (`odb:<id>`), else fall back to the normalized case number with
an optional court code (`case:<number>[:<code>]`), else raise
`ValueError` (modelled as `Except`). -/
def generate_case_key (case_id case_number court_code : Option Str) :
    Except Unit Str :=
  if truthyOpt case_id then
    .ok ("odb:".data ++ (case_id.getD []))
  else if truthyOpt case_number then
    let cn := case_number.getD []
    let normalized := (normalize_case_number cn).getD cn
    if truthyOpt court_code then
      .ok ("case:".data ++ normalized ++ ':' :: (court_code.getD []))
    else
      .ok ("case:".data ++ normalized)
  else .error ()

example : normalize_case_number "№ 922/4626/23 ".data = some "922/4626/23".data := by decide
example : normalize_case_number "922/4627/23-ц".data = some "922/4627/23-ц".data := by decide
example : normalize_case_number "справа 904/3388/23".data = some "904/3388/23".data := by decide
example : normalize_case_number "no case here".data = none := by decide
example : normalize_case_number "12345/67/89".data = some "2345/67/89".data := by decide

/-! ## Threat analyzer (src/services/threat_analyzer.py) -/

/-- The fields of the `case_data` dict read by `analyze_threat`
(absent dict keys are `none`). -/
structure ThreatInput where
  case_type_name : Option Str
  form : Option Str
  plaintiff : Option Str
  defendant : Option Str

/-- The result dict built by `analyze_threat` (threat_analyzer.py:28-35);
`emoji` is the extra key the monitoring pipeline may add afterwards
(monitoring.py:185). -/
structure ThreatResult where
  threat_level : Str
  company_role : Str
  case_category : Str
  dangerous_plaintiff : Bool
  is_criminal : Bool
  analysis_notes : List Str
  emoji : Option Str
deriving DecidableEq

def tierCritical : Str := "CRITICAL".data
def tierHigh : Str := "HIGH".data
def tierMedium : Str := "MEDIUM".data
def tierLow : Str := "LOW".data

/-- `_contains_company_by_edrpou` (threat_analyzer.py:81-83):
membership of the code in the text with spaces removed. -/
def contains_company_by_edrpou (text edrpou : Str) : Bool :=
  pyIn edrpou (text.filter (fun c => !(c == ' ')))

/-- The default `DANGEROUS_PLAINTIFFS` keyword list (settings.py:41-43,
split on commas and lowercased by `dangerous_plaintiffs_list`). -/
def defaultDangerousPlaintiffs : List Str :=
  ["прокуратура".data, "податкова".data, "поліція".data, "дбр".data,
   "набу".data, "сбу".data, "держгеокадастр".data,
   "виконавча служба".data]

/-- The default result dict of `analyze_threat`
(threat_analyzer.py:28-35). -/
def threatBase : ThreatResult :=
  ⟨tierMedium, "defendant".data, "civil".data, false, false, [], none⟩

/-- Category detection of `analyze_threat` (threat_analyzer.py:37-53):
an elif-chain of substring tests over the lowered case-form text, the
criminal keyword setting tier CRITICAL. -/
def threatStage1 (case_form : Str) : ThreatResult :=
  if pyIn "кримінальн".data case_form then
    { threatBase with
        is_criminal := true
        case_category := "criminal".data
        threat_level := tierCritical
        analysis_notes := threatBase.analysis_notes ++
          ["Кримінальне провадження".data] }
  else if pyIn "господарськ".data case_form then
    { threatBase with
        case_category := "commercial".data
        analysis_notes := threatBase.analysis_notes ++
          ["Господарське судочинство".data] }
  else if pyIn "адміністративн".data case_form then
    { threatBase with
        case_category := "administrative".data
        analysis_notes := threatBase.analysis_notes ++
          ["Адміністративне судочинство".data] }
  else if pyIn "цивільн".data case_form then
    { threatBase with
        case_category := "civil".data
        analysis_notes := threatBase.analysis_notes ++
          ["Цивільне судочинство".data] }
  else threatBase

/-- Company-role determination of `analyze_threat`
(threat_analyzer.py:55-67): only when some party text is present; a
plaintiff-side match downgrades the tier to LOW unless the case is
criminal. -/
def threatStage2 (r1 : ThreatResult) (company_edrpou plaintiff defendant :
    Str) : ThreatResult :=
  if plaintiff ≠ [] ∨ defendant ≠ [] then
    if pyIn company_edrpou defendant ||
       contains_company_by_edrpou defendant company_edrpou then
      { r1 with company_role := "defendant".data }
    else if pyIn company_edrpou plaintiff ||
            contains_company_by_edrpou plaintiff company_edrpou then
      if !r1.is_criminal then
        { r1 with
            company_role := "plaintiff".data
            threat_level := tierLow }
      else
        { r1 with company_role := "plaintiff".data }
    else { r1 with company_role := "party".data }
  else r1

/-- Dangerous-plaintiff scan of `analyze_threat`
(threat_analyzer.py:69-76): only when not criminal; the first keyword
contained in the plaintiff text raises the tier to HIGH and is recorded
in the notes. -/
def threatStage3 (r2 : ThreatResult) (plaintiff : Str)
    (dangerous : List Str) : ThreatResult :=
  if !r2.is_criminal then
    match dangerous.find? (fun p => pyIn p plaintiff) with
    | some p =>
        { r2 with
            dangerous_plaintiff := true
            threat_level := tierHigh
            analysis_notes := r2.analysis_notes ++ [("Держорган: ".data ++ p)] }
    | none => r2
  else r2

/-- `analyze_threat` (threat_analyzer.py:15-78): the three stages in the
source order over the lowered `case_type_name or form or ''`,
`plaintiff or ''` and `defendant or ''` texts.  The configured
dangerous-plaintiff keyword list (`settings.dangerous_plaintiffs_list`)
is passed explicitly. -/
def analyze_threat (cd : ThreatInput) (company_edrpou : Str)
    (dangerous : List Str) : ThreatResult :=
  let case_form := pyLower (orElseStr cd.case_type_name (orElseStr cd.form []))
  let plaintiff := pyLower (orElseStr cd.plaintiff [])
  let defendant := pyLower (orElseStr cd.defendant [])
  threatStage3
    (threatStage2 (threatStage1 case_form) company_edrpou plaintiff defendant)
    plaintiff dangerous

example :
    (analyze_threat ⟨some "Кримінальне провадження".data, none,
        some "Прокуратура м.Києва".data, none⟩ "12345678".data
      defaultDangerousPlaintiffs).threat_level = tierCritical := by decide

example :
    (analyze_threat ⟨some "Цивільне".data, none,
        some "прокуратура".data, some "хтось".data⟩ "12345678".data
      defaultDangerousPlaintiffs).threat_level = tierHigh := by decide

example :
    (analyze_threat ⟨some "Цивільне".data, none,
        some "тов ромашка 12345678".data, some "хтось".data⟩ "12345678".data
      defaultDangerousPlaintiffs).threat_level = tierLow := by decide

/-! ## Notification ledger (src/storage/repository.py, models.py) -/

/-- A `notifications_sent` row (models.py:119-130). -/
structure LedgerEntry where
  case_key : Str
  normalized_case_number : Option Str
  threat_level : Option Str
  telegram_message_id : Option Str
  telegram_chat_id : Option Str
  payload_hash : Option Str
deriving DecidableEq

/-- The `notifications_sent` table, in insertion order. -/
abbrev Ledger := List LedgerEntry

/-- Database error raised by a commit that violates a unique
constraint (the `unique=True` on `case_key`, models.py:124). -/
inductive DbError where
  | duplicateKey
deriving DecidableEq

/-- `NotificationRepository.notification_sent` (repository.py:266-272):
does an entry with this `case_key` exist? -/
def notification_sent (led : Ledger) (key : Str) : Bool :=
  led.any (fun e => e.case_key == key)

/-- `NotificationRepository.add_notification` (repository.py:274-289):
a plain insert-and-commit.  The unique constraint on `case_key` makes
the commit raise `IntegrityError` when an entry with the same key
already exists; the failed transaction stores nothing. -/
def add_notification (led : Ledger) (e : LedgerEntry) :
    Except DbError Ledger :=
  if led.any (fun x => x.case_key == e.case_key) then .error .duplicateKey
  else .ok (led ++ [e])

/-- Number of stored entries carrying a given `case_key`. -/
def countKey (key : Str) (led : Ledger) : Nat :=
  led.countP (fun e => e.case_key == key)

/-- `UserSettingsRepository.get_receive_all` (repository.py:429-432):
the stored `receive_all_notifications` flag, `False` when the user has
no settings row.  The table is modelled as an association list
`user_id ↦ receive_all_notifications`. -/
def get_receive_all (settings : List (Int × Bool)) (userId : Int) : Bool :=
  match settings.find? (fun p => p.1 == userId) with
  | some p => p.2
  | none => false

/-! ## Telegram notifier (src/services/notifier.py) -/

/-- The fields of the `case_data` dict read by
`TelegramNotifier.send_case_notification` for key generation
(notifier.py:43-47). -/
structure CaseData where
  case_id : Option Str
  normalized_case_number : Option Str
  case_number : Option Str
  court_code : Option Str
deriving DecidableEq

/-- Observable outcome of one `send_case_notification` call:
whether `bot.send_message` was invoked, the returned message id
(`None` on any skip or failure), and the ledger afterwards. -/
structure SendResult where
  dispatched : Bool
  returned : Option Str
  ledger : Ledger
deriving DecidableEq

/-- `TelegramNotifier.send_case_notification` (notifier.py:21-90).
The Telegram transport is an oracle: `sendOk` tells whether
`bot.send_message` succeeds, `sentMsgId` is the message id it returns,
and `payloadHash` stands for the MD5 content hash computed from the
payload.  Flow: resolve the target chat (argument or default admin,
`None`/empty aborts); build the per-user dedup key
`<base event key>:<chat id>`; return early when the ledger already has
the key (checked before any dispatch); otherwise send, and only after a
successful send record the ledger entry; any exception inside the
`try` block (failed send, or a duplicate-key insert) is caught and
yields `None` with no new entry from that failing commit.
`generate_case_key` may raise `ValueError` before the `try` block,
which propagates (`Except.error`). -/
def send_case_notification (led : Ledger) (cd : CaseData)
    (threat_level : Str) (chat_id defaultChat : Option Str)
    (sendOk : Bool) (sentMsgId : Str) (payloadHash : Str) :
    Except Unit SendResult :=
  match pyOrOpt chat_id defaultChat with
  | none => .ok ⟨false, none, led⟩
  | some target =>
    if target = [] then .ok ⟨false, none, led⟩ else
    match generate_case_key cd.case_id
        (pyOrOpt cd.normalized_case_number cd.case_number) cd.court_code with
    | .error e => .error e
    | .ok baseKey =>
      let case_key := baseKey ++ ':' :: target
      if notification_sent led case_key then .ok ⟨false, none, led⟩
      else if sendOk then
        match add_notification led
            ⟨case_key, cd.normalized_case_number, some threat_level,
             some sentMsgId, some target, some payloadHash⟩ with
        | .ok led2 => .ok ⟨true, some sentMsgId, led2⟩
        | .error _ => .ok ⟨true, none, led⟩
      else .ok ⟨true, none, led⟩

/-! ## Monitoring cycle (src/services/monitoring.py) -/

/-- One history event as read by `check_new_cases` (monitoring.py:127-131):
`str()`-coerced notification id and EDRPOU code, and the event type. -/
structure Event where
  notificationId : Str
  code : Str
  type : Str
deriving DecidableEq

/-- The normalized EDRPOU set `{c.edrpou.lstrip('0') for c in companies}`
(monitoring.py:105), from the active companies' codes. -/
def edrpouSetOf (companies : List Str) : List Str :=
  companies.map lstrip0

/-- Does an event survive the type and tracked-entity filters
(monitoring.py:133-140)? -/
def relevantEvent (companies : List Str) (e : Event) : Bool :=
  e.type == "court".data &&
  (edrpouSetOf companies).contains (lstrip0 e.code)

/-- One loop iteration's effect on `max_id` (monitoring.py:127-144):
events failing the court-type or tracked-entity check are skipped
*before* the `max_id` update; for the rest,
`if notification_id and (not max_id or notification_id > max_id)`
replaces `max_id`, comparing ids as Python strings. -/
def maxStep (companies : List Str) (st : Option Str) (e : Event) :
    Option Str :=
  if !(e.type == "court".data) then st
  else if !((edrpouSetOf companies).contains (lstrip0 e.code)) then st
  else if e.notificationId ≠ [] ∧
          (!(truthyOpt st) ∨ strLt (st.getD []) e.notificationId) then
    some e.notificationId
  else st

/-- Was an event skipped by `if last_id and notification_id <= last_id`
(monitoring.py:146-148), the already-processed check against the cursor
captured at cycle start?  Only events that survive the earlier type and
entity filters reach this check. -/
def skippedAsProcessed (companies : List Str) (lastId : Option Str)
    (e : Event) : Bool :=
  relevantEvent companies e &&
  truthyOpt lastId && strLe e.notificationId (lastId.getD [])

/-- The cursor persisted after one cycle (monitoring.py:125,248-250):
fold `max_id` over the feed starting from the stored cursor, then
`set_state` only `if max_id and max_id != last_id`; otherwise the
stored value stays. -/
def runCursor (companies : List Str) (lastId : Option Str)
    (events : List Event) : Option Str :=
  let m := events.foldl (maxStep companies) lastId
  if truthyOpt m ∧ m ≠ lastId then m else lastId

/-- Recipient resolution and the opt-out filter for one case item
(monitoring.py:200-243): the candidate set is the union of the entity
subscribers and the case-number subscribers; a candidate is dropped iff
the case is already in the Worksection index AND their
`receive_all_notifications` setting is off AND they are not reached via
a case subscription; when there are no candidates at all, the admin
default chat is notified instead, but only for cases not in the index. -/
def dispatchTargets (subscribedUsers caseSubscribedUsers : List Int)
    (settings : List (Int × Bool)) (isInWorksection : Bool)
    (adminChat : Option Int) : List Int :=
  let allUsers := (subscribedUsers ++ caseSubscribedUsers).dedup
  if allUsers ≠ [] then
    allUsers.filter (fun u =>
      !(isInWorksection && !(get_receive_all settings u) &&
        !(caseSubscribedUsers.contains u)))
  else if !isInWorksection then adminChat.toList else []

/-- The threat analysis a dispatched notification carries, as assembled
by the pipeline (monitoring.py:166-185): `analyze_threat` is invoked on
the `case_data` dict — which has no `plaintiff`/`defendant` keys and
whose `case_type_name` is the item's `form` — with the literal company
identifier `'defendant'`; afterwards, if the raw form contains
`'Кримінальне'` (case-sensitively), the level is overridden to CRITICAL
and the alarm emoji is attached. -/
def pipelineThreat (ciForm : Str) (dangerous : List Str) : ThreatResult :=
  let case_data : ThreatInput := ⟨some ciForm, none, none, none⟩
  let ta := analyze_threat case_data "defendant".data dangerous
  if pyIn "Кримінальне".data ciForm then
    { ta with
        threat_level := tierCritical
        emoji := some "🚨".data }
  else ta

/-! ## Shared ledger-counting lemmas -/

theorem countKey_zero_any_false (led : Ledger) (k : Str)
    (h : countKey k led = 0) :
    led.any (fun x => x.case_key == k) = false := by
  rw [List.any_eq_false]
  intro x hx
  simp only [countKey, List.countP_eq_zero] at h
  exact h x hx

/-! ## C1 -/

/-- Sample ledger entry used to exercise the duplicate-insert path. -/
def entryC1 : LedgerEntry :=
  ⟨"odb:1:42".data, some "922/4626/23".data, some tierMedium,
   some "7".data, some "42".data, some "h".data⟩

/-- Claim C1, as stated, is false: the second `add_notification` call
with the same `case_key` raises a duplicate-key error instead of being
an idempotent no-op. -/
theorem add_notification_not_idempotent_cex :
    add_notification [] entryC1 = .ok [entryC1] ∧
    add_notification [entryC1] entryC1 = .error .duplicateKey := by
  constructor <;> rfl

/-- Claim C1 (amended): calling `add_notification` twice with the same
key makes the second call raise a duplicate-key error (it is not an
idempotent no-op); the failed insert stores nothing, so after both
calls exactly one stored entry with that `case_key` exists. -/
theorem add_notification_duplicate_raises (led : Ledger) (e : LedgerEntry)
    (h : countKey e.case_key led = 0) :
    add_notification led e = .ok (led ++ [e]) ∧
    countKey e.case_key (led ++ [e]) = 1 ∧
    add_notification (led ++ [e]) e = .error .duplicateKey := by
  have hany := countKey_zero_any_false led e.case_key h
  refine ⟨?_, ?_, ?_⟩
  · simp [add_notification, hany]
  · simp [countKey, List.countP_append, List.countP_cons]
    simpa [countKey] using h
  · simp [add_notification, List.any_append, hany]

theorem add_notification_duplicate_raises_witness :
    add_notification [] entryC1 = .ok [entryC1] ∧
    countKey entryC1.case_key [entryC1] = 1 ∧
    add_notification [entryC1] entryC1 = .error .duplicateKey := by
  simpa using add_notification_duplicate_raises [] entryC1 (by decide)

/-! ## C3 -/

/-- Claim C3 is contradicted by the code: `check_new_cases` compares
notification ids as Python strings, so starting from cursor `"100"`
with court-type tracked events `"98"`, `"101"`, `"99"`, `"105"` the
cycle persists cursor `"99"` (the lexicographic maximum, since
`"99" > "105" > "101"` and `"98" > "100"` as strings), and events
`"98"`/`"99"` are **not** skipped as already processed — contradicting
the code's own `# Skip if already processed` intent for numeric ids. -/
theorem cursor_string_compare_eval :
    runCursor ["123".data] (some "100".data)
      [⟨"98".data, "123".data, "court".data⟩,
       ⟨"101".data, "123".data, "court".data⟩,
       ⟨"99".data, "123".data, "court".data⟩,
       ⟨"105".data, "123".data, "court".data⟩] = some "99".data ∧
    skippedAsProcessed ["123".data] (some "100".data)
      ⟨"98".data, "123".data, "court".data⟩ = false ∧
    skippedAsProcessed ["123".data] (some "100".data)
      ⟨"99".data, "123".data, "court".data⟩ = false := by
  decide

/-! ## C5 -/

/-- Claim C5, as stated, is false: an event skipped as not court-type
(or as belonging to an untracked entity) does **not** contribute to the
max-id tracking — the `continue` happens before the `max_id` update —
so the cursor does not advance past irrelevant events (it stays unset
here instead of advancing to `"50"` / `"60"`). -/
theorem cursor_ignores_irrelevant_cex :
    runCursor ["123".data] none
      [⟨"50".data, "123".data, "news".data⟩] = none ∧
    runCursor ["123".data] none
      [⟨"60".data, "777".data, "court".data⟩] = none := by
  decide

theorem maxStep_irrelevant (companies : List Str) (st : Option Str)
    (e : Event) (h : relevantEvent companies e = false) :
    maxStep companies st e = st := by
  simp only [relevantEvent, Bool.and_eq_false_iff] at h
  rcases h with h | h
  · simp [maxStep, h]
  · have h' : lstrip0 e.code ∉ edrpouSetOf companies := by simpa using h
    simp [maxStep, h']

/-- Claim C5 (amended): within one cycle the maximum event id is
tracked only over events that pass the court-type and tracked-entity
filters — irrelevant events never advance it — while for a relevant
event the update happens before (so regardless of) the
already-processed skip against the cursor. -/
theorem cursor_tracks_only_relevant (companies : List Str)
    (lastId : Option Str) (events : List Event) (st : Option Str)
    (e : Event) :
    (List.foldl (maxStep companies) lastId events =
       List.foldl (maxStep companies) lastId
         (events.filter (relevantEvent companies))) ∧
    (relevantEvent companies e = true →
     e.notificationId ≠ [] →
     (truthyOpt st = false ∨ strLt (st.getD []) e.notificationId = true) →
     maxStep companies st e = some e.notificationId) := by
  constructor
  · induction events generalizing lastId with
    | nil => rfl
    | cons e' es ih =>
      by_cases h : relevantEvent companies e' = true
      · simp [List.filter_cons, h, ih]
      · have h' : relevantEvent companies e' = false := by
          simpa using h
        simp [List.filter_cons, h', maxStep_irrelevant companies lastId e' h', ih]
  · intro hrel hnid hcond
    simp only [relevantEvent, Bool.and_eq_true, beq_iff_eq] at hrel
    have hmem : lstrip0 e.code ∈ edrpouSetOf companies := by
      simpa using hrel.2
    rcases hcond with h | h
    · simp [maxStep, hrel.1, hmem, hnid, h]
    · simp [maxStep, hrel.1, hmem, hnid, h]

theorem cursor_tracks_only_relevant_witness :
    (List.foldl (maxStep ["123".data]) none
        [⟨"50".data, "123".data, "news".data⟩] =
      List.foldl (maxStep ["123".data]) none
        ([⟨"50".data, "123".data, "news".data⟩].filter
          (relevantEvent ["123".data]))) ∧
    maxStep ["123".data] (some "10".data)
      ⟨"50".data, "123".data, "court".data⟩ = some "50".data := by
  refine ⟨(cursor_tracks_only_relevant ["123".data] none
      [⟨"50".data, "123".data, "news".data⟩] none
      ⟨"50".data, "123".data, "court".data⟩).1, ?_⟩
  exact (cursor_tracks_only_relevant ["123".data] none
      [⟨"50".data, "123".data, "news".data⟩] (some "10".data)
      ⟨"50".data, "123".data, "court".data⟩).2
    (by decide) (by decide) (Or.inr (by decide))

/-! ## C7 -/

/-- Claim C7: the opt-out filter (monitoring.py:213-231 with the admin
fallback at 236-246) never sends to a recipient with the default
preference and no case subscription when the case number is in the
Known-Cases (Worksection) index, and never excludes a case-subscribed
recipient, whatever the index says. -/
theorem optout_filter_case_subscription (subs csubs : List Int)
    (settings : List (Int × Bool)) (ws : Bool) (adminChat : Option Int)
    (u : Int) :
    (ws = true → get_receive_all settings u = false →
     csubs.contains u = false →
     u ∉ dispatchTargets subs csubs settings ws adminChat) ∧
    (u ∈ csubs → u ∈ dispatchTargets subs csubs settings ws adminChat) := by
  constructor
  · intro hws hra hcs
    unfold dispatchTargets
    by_cases hall : (subs ++ csubs).dedup ≠ []
    · rw [if_pos hall]
      intro hmem
      rw [List.mem_filter] at hmem
      have := hmem.2
      simp [hws, hra, hcs] at this
      exact (by simpa using hcs : u ∉ csubs) this
    · rw [if_neg hall, hws]
      simp
  · intro hu
    have hmem : u ∈ (subs ++ csubs).dedup := by
      rw [List.mem_dedup]
      exact List.mem_append_right _ hu
    have hall : (subs ++ csubs).dedup ≠ [] := List.ne_nil_of_mem hmem
    unfold dispatchTargets
    rw [if_pos hall, List.mem_filter]
    refine ⟨hmem, ?_⟩
    simp only [Bool.not_eq_true', Bool.and_eq_false_iff]
    simp
    exact Or.inr hu

theorem optout_filter_case_subscription_witness :
    ((5 : Int) ∉ dispatchTargets [5] [] [] true none) ∧
    ((7 : Int) ∈ dispatchTargets [] [7] [] true none) := by
  constructor
  · exact (optout_filter_case_subscription [5] [] [] true none 5).1
      rfl (by decide) (by decide)
  · exact (optout_filter_case_subscription [] [7] [] true none 7).2
      (by decide)

/-! ## C2 -/

/-- Claim C2: for every recipient and event, `send_case_notification`
checks the per-recipient dedup key (base event key ++ `:` ++ chat id)
against the ledger before dispatching — an already-recorded key sends
nothing and leaves the ledger unchanged; a successful send writes
exactly one ledger entry with that key, and only after the send
succeeds: a failed send writes no entry. -/
theorem send_dedup_before_dispatch_ledger_after_success
    (led : Ledger) (cd : CaseData) (tl : Str) (chat defChat : Option Str)
    (sendOk : Bool) (msgId hash target baseKey : Str)
    (htarget : pyOrOpt chat defChat = some target)
    (hne : target ≠ [])
    (hbase : generate_case_key cd.case_id
        (pyOrOpt cd.normalized_case_number cd.case_number) cd.court_code
      = .ok baseKey) :
    (notification_sent led (baseKey ++ ':' :: target) = true →
       send_case_notification led cd tl chat defChat sendOk msgId hash =
         .ok ⟨false, none, led⟩) ∧
    (notification_sent led (baseKey ++ ':' :: target) = false →
     sendOk = true →
       send_case_notification led cd tl chat defChat sendOk msgId hash =
         .ok ⟨true, some msgId,
              led ++ [⟨baseKey ++ ':' :: target, cd.normalized_case_number,
                       some tl, some msgId, some target, some hash⟩]⟩ ∧
       countKey (baseKey ++ ':' :: target)
         (led ++ [⟨baseKey ++ ':' :: target, cd.normalized_case_number,
                   some tl, some msgId, some target, some hash⟩]) = 1) ∧
    (notification_sent led (baseKey ++ ':' :: target) = false →
     sendOk = false →
       send_case_notification led cd tl chat defChat sendOk msgId hash =
         .ok ⟨true, none, led⟩) := by
  refine ⟨?_, ?_, ?_⟩
  · intro hsent
    simp [send_case_notification, htarget, hne, hbase, hsent]
  · intro hsent hok
    have hany : led.any
        (fun x => x.case_key == baseKey ++ ':' :: target) = false := hsent
    constructor
    · simp [send_case_notification, htarget, hne, hbase, hsent, hok,
        add_notification, hany]
    · have h0 : countKey (baseKey ++ ':' :: target) led = 0 := by
        simp only [countKey, List.countP_eq_zero]
        intro x hx
        have := (List.any_eq_false).1 hany x hx
        simpa using this
      simp [countKey, List.countP_append, List.countP_cons]
      simpa [countKey] using h0
  · intro hsent hok
    simp [send_case_notification, htarget, hne, hbase, hsent, hok]

theorem send_dedup_before_dispatch_ledger_after_success_witness :
    send_case_notification [] ⟨some "123".data, none, none, none⟩
        tierMedium (some "42".data) none true "777".data "h".data =
      .ok ⟨true, some "777".data,
           [⟨"odb:123".data ++ ':' :: "42".data, none, some tierMedium,
             some "777".data, some "42".data, some "h".data⟩]⟩ ∧
    countKey ("odb:123".data ++ ':' :: "42".data)
      [⟨"odb:123".data ++ ':' :: "42".data, none, some tierMedium,
        some "777".data, some "42".data, some "h".data⟩] = 1 := by
  have h := (send_dedup_before_dispatch_ledger_after_success
      [] ⟨some "123".data, none, none, none⟩ tierMedium
      (some "42".data) none true "777".data "h".data "42".data
      "odb:123".data (by decide) (by decide) (by rfl)).2.1
      (by decide) rfl
  simpa using h

/-! ## Shared classifier-stage lemmas -/

theorem threatStage1_crim (f : Str) (h : pyIn "кримінальн".data f = true) :
    threatStage1 f =
      ⟨tierCritical, "defendant".data, "criminal".data, false, true,
       ["Кримінальне провадження".data], none⟩ := by
  simp [threatStage1, threatBase, h]

theorem threatStage1_not_crim (f : Str)
    (h : pyIn "кримінальн".data f = false) :
    (threatStage1 f).threat_level = tierMedium ∧
    (threatStage1 f).is_criminal = false := by
  unfold threatStage1
  rw [if_neg (by simp [h])]
  split_ifs <;> simp [threatBase]

theorem threatStage2_is_criminal (r1 : ThreatResult) (e p d : Str) :
    (threatStage2 r1 e p d).is_criminal = r1.is_criminal := by
  unfold threatStage2
  split_ifs <;> rfl

theorem threatStage2_level_crim (r1 : ThreatResult) (e p d : Str)
    (h : r1.is_criminal = true) :
    (threatStage2 r1 e p d).threat_level = r1.threat_level := by
  unfold threatStage2
  split_ifs <;> simp_all

theorem threatStage2_empty (r1 : ThreatResult) (e : Str) :
    threatStage2 r1 e [] [] = r1 := by
  simp [threatStage2]

theorem threatStage2_level_cases (r1 : ThreatResult) (e p d : Str) :
    (threatStage2 r1 e p d).threat_level = r1.threat_level ∨
    (threatStage2 r1 e p d).threat_level = tierLow := by
  unfold threatStage2
  split_ifs <;> simp

theorem threatStage3_crim (r2 : ThreatResult) (p : Str) (dl : List Str)
    (h : r2.is_criminal = true) : threatStage3 r2 p dl = r2 := by
  simp [threatStage3, h]

theorem threatStage3_none (r2 : ThreatResult) (p : Str) (dl : List Str)
    (h : dl.find? (fun q => pyIn q p) = none) :
    threatStage3 r2 p dl = r2 := by
  unfold threatStage3
  rw [h]
  split_ifs <;> rfl

theorem threatStage3_level_cases (r2 : ThreatResult) (p : Str)
    (dl : List Str) :
    (threatStage3 r2 p dl).threat_level = r2.threat_level ∨
    (threatStage3 r2 p dl).threat_level = tierHigh := by
  unfold threatStage3
  split_ifs with h
  · cases hfind : dl.find? (fun q => pyIn q p) with
    | none => simp [hfind]
    | some q => simp [hfind]
  · simp

/-! ## C6 -/

/-- Claim C6: whenever the case-category text (`case_type_name` falling
back to `form`) contains the criminal keyword case-insensitively, the
classifier returns tier CRITICAL with `is_criminal = true`, for every
company identifier, every dangerous-keyword configuration and every
plaintiff/defendant text: neither the plaintiff-role LOW downgrade nor
the dangerous-plaintiff HIGH escalation can change it. -/
theorem criminal_category_always_critical (cd : ThreatInput)
    (edrpou : Str) (dangerous : List Str)
    (h : pyIn "кримінальне".data
      (pyLower (orElseStr cd.case_type_name (orElseStr cd.form []))) = true) :
    (analyze_threat cd edrpou dangerous).threat_level = tierCritical ∧
    (analyze_threat cd edrpou dangerous).is_criminal = true := by
  have hsplit : "кримінальне".data = "кримінальн".data ++ ['е'] := by decide
  have h10 : pyIn "кримінальн".data
      (pyLower (orElseStr cd.case_type_name (orElseStr cd.form []))) = true := by
    rw [pyIn, decide_eq_true_iff] at h ⊢
    obtain ⟨s, t, hst⟩ := h
    refine ⟨s, 'е' :: t, ?_⟩
    rw [hsplit] at hst
    rw [← hst]
    simp
  have e1 := threatStage1_crim _ h10
  have hcrim1 : (threatStage1 (pyLower (orElseStr cd.case_type_name
      (orElseStr cd.form [])))).is_criminal = true := by rw [e1]
  have hcrim2 : (threatStage2 (threatStage1 (pyLower
      (orElseStr cd.case_type_name (orElseStr cd.form [])))) edrpou
      (pyLower (orElseStr cd.plaintiff []))
      (pyLower (orElseStr cd.defendant []))).is_criminal = true := by
    rw [threatStage2_is_criminal]
    exact hcrim1
  have hEq : analyze_threat cd edrpou dangerous =
      threatStage2 (threatStage1 (pyLower (orElseStr cd.case_type_name
        (orElseStr cd.form [])))) edrpou
        (pyLower (orElseStr cd.plaintiff []))
        (pyLower (orElseStr cd.defendant [])) := by
    show threatStage3 _ _ _ = _
    rw [threatStage3_crim _ _ _ hcrim2]
  rw [hEq]
  refine ⟨?_, hcrim2⟩
  rw [threatStage2_level_crim _ _ _ _ hcrim1, e1]

theorem criminal_category_always_critical_witness :
    (analyze_threat ⟨some "КРИМІНАЛЬНЕ провадження".data, none,
        some "прокуратура".data, some "тов щось".data⟩ "12345678".data
      defaultDangerousPlaintiffs).threat_level = tierCritical ∧
    (analyze_threat ⟨some "КРИМІНАЛЬНЕ провадження".data, none,
        some "прокуратура".data, some "тов щось".data⟩ "12345678".data
      defaultDangerousPlaintiffs).is_criminal = true :=
  criminal_category_always_critical
    ⟨some "КРИМІНАЛЬНЕ провадження".data, none,
     some "прокуратура".data, some "тов щось".data⟩ "12345678".data
    defaultDangerousPlaintiffs (by decide)

/-! ## Shared emptiness lemmas -/

theorem pyIn_nil (p : Str) (hp : p ≠ []) : pyIn p [] = false := by
  rw [pyIn, decide_eq_false_iff_not]
  rintro ⟨s, t, hst⟩
  have h1 := (List.append_eq_nil.1 hst).1
  exact hp (List.append_eq_nil.1 h1).2

theorem find_pyIn_nil_eq_none (dl : List Str) (hd : ∀ p ∈ dl, p ≠ []) :
    dl.find? (fun q => pyIn q ([] : Str)) = none := by
  rw [List.find?_eq_none]
  intro p hp
  simp [pyIn_nil p (hd p hp)]

/-! ## C10 -/

/-- Claim C10: the monitoring pipeline invokes the classifier with the
literal company identifier `'defendant'` on event data carrying no
plaintiff/defendant text (see `pipelineThreat`), so — as long as the
configured dangerous-plaintiff keywords are nonempty strings, as the
defaults are — a notification assembled by the cycle carries tier
CRITICAL or tier MEDIUM only, even though `analyze_threat` itself can
return HIGH and LOW on party-bearing inputs. -/
theorem pipeline_tier_critical_or_medium (ciForm : Str)
    (dangerous : List Str) (hd : ∀ p ∈ dangerous, p ≠ []) :
    ((pipelineThreat ciForm dangerous).threat_level = tierCritical ∨
     (pipelineThreat ciForm dangerous).threat_level = tierMedium) ∧
    (analyze_threat ⟨some "Цивільне".data, none, some "прокуратура".data,
        some "інший".data⟩ "00000000".data
      defaultDangerousPlaintiffs).threat_level = tierHigh ∧
    (analyze_threat ⟨some "Цивільне".data, none, some "тов 123".data,
        some "інший".data⟩ "123".data
      defaultDangerousPlaintiffs).threat_level = tierLow := by
  refine ⟨?_, by decide, by decide⟩
  have hfind := find_pyIn_nil_eq_none dangerous hd
  have hp0 : pyLower (orElseStr (none : Option Str) []) = ([] : Str) := rfl
  have hEq : analyze_threat ⟨some ciForm, none, none, none⟩
      "defendant".data dangerous =
      threatStage1 (pyLower (orElseStr (some ciForm)
        (orElseStr (none : Option Str) []))) := by
    show threatStage3 (threatStage2 _ _
        (pyLower (orElseStr (none : Option Str) []))
        (pyLower (orElseStr (none : Option Str) [])))
        (pyLower (orElseStr (none : Option Str) [])) dangerous = _
    rw [hp0, threatStage2_empty, threatStage3_none _ _ _ hfind]
  simp only [pipelineThreat, hEq]
  split_ifs with hov
  · left
    rfl
  · by_cases hcrim : pyIn "кримінальн".data (pyLower (orElseStr (some ciForm)
        (orElseStr (none : Option Str) []))) = true
    · left
      rw [threatStage1_crim _ hcrim]
    · right
      exact (threatStage1_not_crim _ (by simpa using hcrim)).1

theorem pipeline_tier_critical_or_medium_witness :
    (((pipelineThreat "Кримінальне провадження".data
        defaultDangerousPlaintiffs).threat_level = tierCritical ∨
      (pipelineThreat "Кримінальне провадження".data
        defaultDangerousPlaintiffs).threat_level = tierMedium) ∧
     (analyze_threat ⟨some "Цивільне".data, none, some "прокуратура".data,
         some "інший".data⟩ "00000000".data
       defaultDangerousPlaintiffs).threat_level = tierHigh ∧
     (analyze_threat ⟨some "Цивільне".data, none, some "тов 123".data,
         some "інший".data⟩ "123".data
       defaultDangerousPlaintiffs).threat_level = tierLow) ∧
    ((pipelineThreat "Цивільне".data
        defaultDangerousPlaintiffs).threat_level = tierCritical ∨
     (pipelineThreat "Цивільне".data
        defaultDangerousPlaintiffs).threat_level = tierMedium) :=
  ⟨pipeline_tier_critical_or_medium "Кримінальне провадження".data
     defaultDangerousPlaintiffs (by decide),
   (pipeline_tier_critical_or_medium "Цивільне".data
     defaultDangerousPlaintiffs (by decide)).1⟩

/-! ## C8 -/

/-- Claim C8, as stated, is false: on an event with no category,
plaintiff or defendant text the classifier returns an **empty** list of
analysis notes — the notes list starts empty and no branch fires. -/
theorem classifier_empty_notes_cex :
    (analyze_threat ⟨none, none, none, none⟩ "defendant".data
      defaultDangerousPlaintiffs).analysis_notes = [] := by
  decide

/-- Claim C8 (amended): for every input event — any combination of
present, missing or empty category, plaintiff and defendant text — the
classifier produces a result without raising, whose tier is one of the
four levels and defaults to MEDIUM (the full default result) when all
the texts are absent or empty and the configured dangerous keywords are
nonempty; the list of notes, however, may be empty. -/
theorem classifier_total_tier_default (cd : ThreatInput) (edrpou : Str)
    (dangerous : List Str) :
    ((analyze_threat cd edrpou dangerous).threat_level = tierCritical ∨
     (analyze_threat cd edrpou dangerous).threat_level = tierHigh ∨
     (analyze_threat cd edrpou dangerous).threat_level = tierMedium ∨
     (analyze_threat cd edrpou dangerous).threat_level = tierLow) ∧
    (orElseStr cd.case_type_name (orElseStr cd.form []) = [] →
     orElseStr cd.plaintiff [] = [] →
     orElseStr cd.defendant [] = [] →
     (∀ p ∈ dangerous, p ≠ []) →
     analyze_threat cd edrpou dangerous = threatBase) := by
  constructor
  · have hEq : analyze_threat cd edrpou dangerous =
        threatStage3 (threatStage2 (threatStage1 (pyLower
          (orElseStr cd.case_type_name (orElseStr cd.form []))))
          edrpou (pyLower (orElseStr cd.plaintiff []))
          (pyLower (orElseStr cd.defendant [])))
          (pyLower (orElseStr cd.plaintiff [])) dangerous := rfl
    rw [hEq]
    rcases threatStage3_level_cases (threatStage2 (threatStage1 (pyLower
        (orElseStr cd.case_type_name (orElseStr cd.form []))))
        edrpou (pyLower (orElseStr cd.plaintiff []))
        (pyLower (orElseStr cd.defendant [])))
        (pyLower (orElseStr cd.plaintiff [])) dangerous with h3 | h3
    · rw [h3]
      rcases threatStage2_level_cases (threatStage1 (pyLower
          (orElseStr cd.case_type_name (orElseStr cd.form []))))
          edrpou (pyLower (orElseStr cd.plaintiff []))
          (pyLower (orElseStr cd.defendant [])) with h2 | h2
      · rw [h2]
        by_cases hc : pyIn "кримінальн".data (pyLower
            (orElseStr cd.case_type_name (orElseStr cd.form []))) = true
        · left
          rw [threatStage1_crim _ hc]
        · right; right; left
          exact (threatStage1_not_crim _ (by simpa using hc)).1
      · right; right; right
        exact h2
    · right; left
      exact h3
  · intro h1 h2 h3 hd
    have hf : pyLower (orElseStr cd.case_type_name (orElseStr cd.form []))
        = ([] : Str) := by rw [h1]; rfl
    have hpl : pyLower (orElseStr cd.plaintiff []) = ([] : Str) := by
      rw [h2]; rfl
    have hdf : pyLower (orElseStr cd.defendant []) = ([] : Str) := by
      rw [h3]; rfl
    show threatStage3 (threatStage2 (threatStage1 _) _ _ _) _ _ = threatBase
    rw [hf, hpl, hdf, threatStage2_empty,
      threatStage3_none _ _ _ (find_pyIn_nil_eq_none dangerous hd)]
    decide

theorem classifier_total_tier_default_witness :
    ((analyze_threat ⟨none, some "".data, some "".data, none⟩
        "12345678".data defaultDangerousPlaintiffs).threat_level =
          tierCritical ∨
     (analyze_threat ⟨none, some "".data, some "".data, none⟩
        "12345678".data defaultDangerousPlaintiffs).threat_level =
          tierHigh ∨
     (analyze_threat ⟨none, some "".data, some "".data, none⟩
        "12345678".data defaultDangerousPlaintiffs).threat_level =
          tierMedium ∨
     (analyze_threat ⟨none, some "".data, some "".data, none⟩
        "12345678".data defaultDangerousPlaintiffs).threat_level =
          tierLow) ∧
    analyze_threat ⟨none, some "".data, some "".data, none⟩
      "12345678".data defaultDangerousPlaintiffs = threatBase := by
  have h := classifier_total_tier_default
    ⟨none, some "".data, some "".data, none⟩ "12345678".data
    defaultDangerousPlaintiffs
  exact ⟨h.1, h.2 (by decide) (by decide) (by decide) (by decide)⟩

/-! ## Shared string-order lemmas -/

theorem charEqOfToNat {a b : Char} (h : a.toNat = b.toNat) : a = b :=
  Char.ext (UInt32.ext h)

theorem strLt_nil_right (s : Str) : strLt s [] = false := by
  cases s <;> rfl

theorem strLt_irrefl (s : Str) : strLt s s = false := by
  induction s with
  | nil => rfl
  | cons a t ih => simp [strLt, ih]

theorem strLt_trans (a b c : Str) (h1 : strLt a b = true)
    (h2 : strLt b c = true) : strLt a c = true := by
  induction a generalizing b c with
  | nil =>
    cases c with
    | nil => rw [strLt_nil_right] at h2; exact absurd h2 (by simp)
    | cons z zs => rfl
  | cons x xs ih =>
    cases b with
    | nil => simp [strLt] at h1
    | cons y ys =>
      cases c with
      | nil => rw [strLt_nil_right] at h2; exact absurd h2 (by simp)
      | cons z zs =>
        simp only [strLt] at h1 h2 ⊢
        by_cases hxz : x.toNat < z.toNat
        · simp [hxz]
        · by_cases hzx : z.toNat < x.toNat
          · exfalso
            split_ifs at h1 h2 <;> omega
          · simp only [hxz, if_false, hzx]
            split_ifs at h1 h2 <;> try omega
            exact ih ys zs h1 h2

theorem strLt_total (a b : Str) :
    strLt a b = true ∨ a = b ∨ strLt b a = true := by
  induction a generalizing b with
  | nil =>
    cases b with
    | nil => exact Or.inr (Or.inl rfl)
    | cons y ys => exact Or.inl rfl
  | cons x xs ih =>
    cases b with
    | nil => exact Or.inr (Or.inr rfl)
    | cons y ys =>
      rcases Nat.lt_trichotomy x.toNat y.toNat with hxy | hxy | hxy
      · exact Or.inl (by simp [strLt, hxy])
      · rcases ih ys with h | h | h
        · exact Or.inl (by simp [strLt, hxy, h])
        · exact Or.inr (Or.inl (by rw [charEqOfToNat hxy, h]))
        · exact Or.inr (Or.inr (by simp [strLt, hxy, h]))
      · exact Or.inr (Or.inr (by simp [strLt, hxy]))

theorem strLt_asymm (a b : Str) (h : strLt a b = true) :
    strLt b a = false := by
  by_contra hc
  have hba : strLt b a = true := by
    simpa using hc
  have := strLt_trans a b a h hba
  rw [strLt_irrefl] at this
  exact absurd this (by simp)

theorem strLe_refl (a : Str) : strLe a a = true := by
  simp [strLe, strLt_irrefl]

theorem strLe_trans (a b c : Str) (h1 : strLe a b = true)
    (h2 : strLe b c = true) : strLe a c = true := by
  simp only [strLe, Bool.not_eq_true'] at h1 h2 ⊢
  by_contra hc
  have hca : strLt c a = true := by simpa using hc
  rcases strLt_total b c with h | h | h
  · have := strLt_trans b c a h hca
    rw [this] at h1
    exact absurd h1 (by simp)
  · subst h
    rw [hca] at h1
    exact absurd h1 (by simp)
  · rw [h] at h2
    exact absurd h2 (by simp)

/-- Comparison of two optional cursor values: absent is least, present
values compare as Python strings. -/
def optStrLe : Option Str → Option Str → Bool
  | none, _ => true
  | some _, none => false
  | some a, some b => strLe a b

theorem optStrLe_refl (o : Option Str) : optStrLe o o = true := by
  cases o with
  | none => rfl
  | some a => simp [optStrLe, strLe_refl]

theorem optStrLe_trans (a b c : Option Str) (h1 : optStrLe a b = true)
    (h2 : optStrLe b c = true) : optStrLe a c = true := by
  cases a with
  | none => rfl
  | some x =>
    cases b with
    | none => simp [optStrLe] at h1
    | some y =>
      cases c with
      | none => simp [optStrLe] at h2
      | some z => exact strLe_trans x y z h1 h2

theorem maxStep_ge (S : List Str) (st : Option Str) (e : Event) :
    optStrLe st (maxStep S st e) = true := by
  unfold maxStep
  split_ifs with h1 h2 h3
  · exact optStrLe_refl st
  · exact optStrLe_refl st
  · cases st with
    | none => rfl
    | some m =>
      rcases h3.2 with hf | hlt
      · have hm : m = [] := by
          simpa [truthyOpt, List.isEmpty_iff] using hf
        subst hm
        simp [optStrLe, strLe, strLt_nil_right]
      · simp only [Option.getD] at hlt
        simp [optStrLe, strLe, strLt_asymm m e.notificationId hlt]
  · exact optStrLe_refl st

theorem foldl_maxStep_ge (S : List Str) (events : List Event)
    (st : Option Str) :
    optStrLe st (List.foldl (maxStep S) st events) = true := by
  induction events generalizing st with
  | nil => exact optStrLe_refl st
  | cons e es ih =>
    exact optStrLe_trans st (maxStep S st e) _
      (maxStep_ge S st e) (ih (maxStep S st e))

/-! ## C4 -/

/-- The upstream numeric reading of a notification id string, used to
state the claim's ordering ("consistent with the upstream numeric
notification-id scheme"). -/
def idNumericValue (s : Str) : Nat :=
  s.foldl (fun n c => n * 10 + (c.toNat - 48)) 0

/-- Claim C4, as stated, is false: under the numeric reading of the
upstream ids the persisted cursor can decrease — from `"100"` a cycle
that sees the single older event `"99"` persists `"99"` (since
`"99" > "100"` as Python strings), and `99 < 100` numerically. -/
theorem cursor_numeric_decrease_cex :
    runCursor ["123".data] (some "100".data)
      [⟨"99".data, "123".data, "court".data⟩] = some "99".data ∧
    idNumericValue "99".data < idNumericValue "100".data := by
  decide

/-- Claim C4 (amended): under the comparison the code actually uses —
Python's lexicographic string order, with an absent or empty cursor as
least — the persisted cursor after a cycle is always ≥ the cursor
before it; it never decreases in that order. -/
theorem cursor_never_decreases_lex (companies : List Str)
    (lastId : Option Str) (events : List Event) :
    optStrLe lastId (runCursor companies lastId events) = true := by
  show optStrLe lastId
      (if truthyOpt (List.foldl (maxStep companies) lastId events) = true ∧
          List.foldl (maxStep companies) lastId events ≠ lastId
       then List.foldl (maxStep companies) lastId events else lastId) = true
  split_ifs with h
  · exact foldl_maxStep_ge companies events lastId
  · exact optStrLe_refl lastId


theorem dropWhile_all_false {p : Char → Bool} {l : Str}
    (h : ∀ x ∈ l, p x = false) : l.dropWhile p = l := by
  cases l with
  | nil => rfl
  | cons x t =>
    rw [List.dropWhile_cons_of_neg]
    simp [h x (by simp)]

theorem takeWhile_append_stop {p : Char → Bool} {l r : Str} {y : Char}
    (hl : ∀ x ∈ l, p x = true) (hy : p y = false) :
    (l ++ y :: r).takeWhile p = l := by
  induction l with
  | nil =>
    rw [List.nil_append, List.takeWhile_cons_of_neg]
    simp [hy]
  | cons x t ih =>
    rw [List.cons_append, List.takeWhile_cons_of_pos (hl x (by simp))]
    rw [ih (fun z hz => hl z (by simp [hz]))]

theorem dropWhile_append_stop {p : Char → Bool} {l r : Str} {y : Char}
    (hl : ∀ x ∈ l, p x = true) (hy : p y = false) :
    (l ++ y :: r).dropWhile p = y :: r := by
  induction l with
  | nil =>
    rw [List.nil_append, List.dropWhile_cons_of_neg]
    simp [hy]
  | cons x t ih =>
    rw [List.cons_append, List.dropWhile_cons_of_pos (hl x (by simp))]
    rw [ih (fun z hz => hl z (by simp [hz]))]

/-- The structure of any string produced as group 1 of a successful
match of the case-number pattern. -/
def CaseShape (c : Str) : Prop :=
  ∃ d1 d2 a b suf,
    c = d1 ++ '/' :: (d2 ++ '/' :: a :: b :: suf) ∧
    (d1.length = 3 ∨ d1.length = 4) ∧ (∀ x ∈ d1, isDig x = true) ∧
    d2 ≠ [] ∧ (∀ x ∈ d2, isDig x = true) ∧
    isDig a = true ∧ isDig b = true ∧
    (suf = [] ∨ ∃ ls, suf = '-' :: ls ∧ ls ≠ [] ∧
      ∀ x ∈ ls, isCaseSuffixChar x = true)

theorem matchSuffix_cases (r5 : Str) :
    matchSuffix r5 = [] ∨
    ∃ ls, matchSuffix r5 = '-' :: ls ∧ ls ≠ [] ∧
      ∀ x ∈ ls, isCaseSuffixChar x = true := by
  unfold matchSuffix
  split
  · split
    case isTrue hls =>
      refine Or.inr ⟨_, rfl, ?_, fun x hx => List.mem_takeWhile_imp hx⟩
      intro hnil
      rw [hnil] at hls
      simp at hls
    case isFalse => exact Or.inl rfl
  · exact Or.inl rfl

theorem shape_of_core (d1 d2 : Str) (a b : Char) (r5 : Str)
    (hlen : d1.length = 3 ∨ d1.length = 4)
    (hd1 : ∀ x ∈ d1, isDig x = true)
    (hd2ne : d2 ≠ []) (hd2 : ∀ x ∈ d2, isDig x = true)
    (ha : isDig a = true) (hb : isDig b = true) :
    CaseShape (d1 ++ '/' :: (d2 ++ ['/', a, b]) ++ matchSuffix r5) := by
  rcases matchSuffix_cases r5 with h0 | ⟨ls, h0, hne, hcls⟩ <;> rw [h0]
  · exact ⟨d1, d2, a, b, [], by simp, hlen, hd1, hd2ne, hd2, ha, hb,
      Or.inl rfl⟩
  · exact ⟨d1, d2, a, b, '-' :: ls, by simp, hlen, hd1, hd2ne, hd2, ha, hb,
      Or.inr ⟨ls, rfl, hne, hcls⟩⟩

theorem matchAt_shape (l m : Str) (h : matchAt l = some m) : CaseShape m := by
  unfold matchAt at h
  split at h
  case isFalse => exact absurd h (by simp)
  case isTrue hlen =>
  split at h
  case h_2 => exact absurd h (by simp)
  case h_1 r2 heq1 =>
  split at h
  case isFalse => exact absurd h (by simp)
  case isTrue hlen2 =>
  split at h
  case h_2 => exact absurd h (by simp)
  case h_1 a b r5 heq2 =>
  split at h
  case isFalse => exact absurd h (by simp)
  case isTrue hab =>
  injection h with h
  rw [← h]
  have hab' : isDig a = true ∧ isDig b = true := by
    simpa [Bool.and_eq_true] using hab
  exact shape_of_core _ _ a b _ hlen
    (fun x hx => List.mem_takeWhile_imp hx)
    (by
      intro hnil
      rw [hnil] at hlen2
      simp at hlen2)
    (fun x hx => List.mem_takeWhile_imp hx) hab'.1 hab'.2


theorem matchAt_of_shape (c : Str) (h : CaseShape c) : matchAt c = some c := by
  obtain ⟨d1, d2, a, b, suf, hc, hlen, hd1, hd2ne, hd2, ha, hb, hsuf⟩ := h
  subst hc
  have hslash : isDig '/' = false := by decide
  have e1 : List.takeWhile isDig
      (d1 ++ '/' :: (d2 ++ '/' :: a :: b :: suf)) = d1 :=
    takeWhile_append_stop hd1 hslash
  have e2 : List.dropWhile isDig
      (d1 ++ '/' :: (d2 ++ '/' :: a :: b :: suf)) =
      '/' :: (d2 ++ '/' :: a :: b :: suf) :=
    dropWhile_append_stop hd1 hslash
  have e3 : List.takeWhile isDig (d2 ++ '/' :: a :: b :: suf) = d2 :=
    takeWhile_append_stop hd2 hslash
  have e4 : List.dropWhile isDig (d2 ++ '/' :: a :: b :: suf) =
      '/' :: a :: b :: suf :=
    dropWhile_append_stop hd2 hslash
  have hd2len : 1 ≤ d2.length := by
    cases d2 with
    | nil => exact absurd rfl hd2ne
    | cons z zs => simp
  unfold matchAt
  rw [e1, e2, if_pos hlen]
  show (if 1 ≤ (List.takeWhile isDig (d2 ++ '/' :: a :: b :: suf)).length
      then _ else none) = _
  rw [e3, if_pos hd2len, e4]
  show (if (isDig a && isDig b) = true then _ else none) = _
  rw [ha, hb]
  show some (d1 ++ '/' :: (d2 ++ ['/', a, b]) ++ matchSuffix suf) =
    some (d1 ++ '/' :: (d2 ++ '/' :: a :: b :: suf))
  rcases hsuf with h0 | ⟨ls, h0, hne, hcls⟩
  · subst h0
    show some (d1 ++ '/' :: (d2 ++ ['/', a, b]) ++ matchSuffix []) = _
    simp [matchSuffix]
  · subst h0
    have hls : List.takeWhile isCaseSuffixChar ls = ls :=
      List.takeWhile_eq_self_iff.2 hcls
    show some (d1 ++ '/' :: (d2 ++ ['/', a, b]) ++
        (if 1 ≤ (List.takeWhile isCaseSuffixChar ls).length then
          '-' :: List.takeWhile isCaseSuffixChar ls else [])) =
      some (d1 ++ '/' :: (d2 ++ '/' :: a :: b :: '-' :: ls))
    rw [hls, if_pos (by
      cases ls with
      | nil => exact absurd rfl hne
      | cons z zs => simp)]
    simp


theorem dig_not_space (x : Char) (hx : isDig x = true) :
    pySpace x = false := by
  simp only [isDig, decide_eq_true_eq] at hx
  simp only [pySpace, decide_eq_false_iff_not]
  omega

theorem cls_not_space (x : Char) (hx : isCaseSuffixChar x = true) :
    pySpace x = false := by
  simp only [isCaseSuffixChar, decide_eq_true_eq] at hx
  simp only [pySpace, decide_eq_false_iff_not]
  omega

theorem shape_no_space (c : Str) (h : CaseShape c) :
    ∀ x ∈ c, pySpace x = false := by
  obtain ⟨d1, d2, a, b, suf, hc, hlen, hd1, hd2ne, hd2, ha, hb, hsuf⟩ := h
  subst hc
  intro x hx
  simp only [List.mem_append, List.mem_cons] at hx
  rcases hx with hx | hx | hx | hx | hx | hx | hx
  · exact dig_not_space x (hd1 x hx)
  · subst hx
    decide
  · exact dig_not_space x (hd2 x hx)
  · subst hx
    decide
  · rw [hx]
    exact dig_not_space a ha
  · rw [hx]
    exact dig_not_space b hb
  · rcases hsuf with h0 | ⟨ls, h0, hne, hcls⟩
    · subst h0
      simp at hx
    · subst h0
      simp only [List.mem_cons] at hx
      rcases hx with hx | hx
      · subst hx
        decide
      · exact cls_not_space x (hcls x hx)

theorem shape_head_digit (c : Str) (h : CaseShape c) :
    ∃ x t, c = x :: t ∧ isDig x = true := by
  obtain ⟨d1, d2, a, b, suf, hc, hlen, hd1, hd2ne, hd2, ha, hb, hsuf⟩ := h
  cases d1 with
  | nil =>
    rcases hlen with hl | hl <;> simp at hl
  | cons x xs =>
    exact ⟨x, xs ++ '/' :: (d2 ++ '/' :: a :: b :: suf),
      by rw [hc]; simp, hd1 x (by simp)⟩

theorem pyLowerChar_digit (x : Char) (hx : isDig x = true) :
    pyLowerChar x = x := by
  simp only [isDig, decide_eq_true_eq] at hx
  unfold pyLowerChar
  rw [if_neg (by omega), if_neg (by omega), if_neg (by omega),
    if_neg (by omega)]

theorem pyStrip_id_of_no_space (l : Str)
    (h : ∀ x ∈ l, pySpace x = false) : pyStrip l = l := by
  unfold pyStrip
  rw [dropWhile_all_false h]
  rw [dropWhile_all_false (fun x hx => h x (List.mem_reverse.1 hx))]
  exact List.reverse_reverse l

theorem dropMarkerChars_id_of_digit_head (x : Char) (t : Str)
    (hx : isDig x = true) : dropMarkerChars (x :: t) = x :: t := by
  have h1 : (x == '№') = false := by
    rw [beq_eq_false_iff_ne]
    intro he
    subst he
    exact absurd hx (by decide)
  have h2 : (x == '#') = false := by
    rw [beq_eq_false_iff_ne]
    intro he
    subst he
    exact absurd hx (by decide)
  unfold dropMarkerChars
  rw [List.dropWhile_cons_of_neg]
  simp [h1, h2, dig_not_space x hx]

theorem dropSpravaMarker_id_of_digit_head (x : Char) (t : Str)
    (hx : isDig x = true) : dropSpravaMarker (x :: t) = x :: t := by
  unfold dropSpravaMarker
  rw [if_neg]
  intro heq
  have e6 : List.take 6 (x :: t) = x :: List.take 5 t := rfl
  rw [e6, List.map_cons, pyLowerChar_digit x hx] at heq
  injection heq with h1 _
  subst h1
  exact absurd hx (by decide)

theorem pySearch_shape (l m : Str) (h : pySearch l = some m) :
    CaseShape m := by
  induction l with
  | nil =>
    unfold pySearch at h
    exact matchAt_shape [] m h
  | cons c t ih =>
    unfold pySearch at h
    cases hm : matchAt (c :: t) with
    | some m2 =>
      rw [hm] at h
      injection h with h
      subst h
      exact matchAt_shape (c :: t) m2 hm
    | none =>
      rw [hm] at h
      exact ih h

theorem pySearch_self (c : Str) (hne : c ≠ []) (hm : matchAt c = some c) :
    pySearch c = some c := by
  cases c with
  | nil => exact absurd rfl hne
  | cons x t =>
    unfold pySearch
    rw [hm]

/-- Claim C9: on any input on which `normalize_case_number` succeeds,
running it again on its own output returns that output unchanged —
normalization is idempotent on canonical forms. -/
theorem normalize_idempotent (s c : Str)
    (h : normalize_case_number s = some c) :
    normalize_case_number c = some c := by
  have hsh : CaseShape c := by
    unfold normalize_case_number at h
    split at h
    · exact absurd h (by simp)
    · exact pySearch_shape _ c h
  obtain ⟨x, t, hxt, hx⟩ := shape_head_digit c hsh
  have hne : c ≠ [] := by
    rw [hxt]
    simp
  have hclean : dropSpravaMarker (dropMarkerChars (pyStrip c)) = c := by
    rw [pyStrip_id_of_no_space c (shape_no_space c hsh), hxt,
      dropMarkerChars_id_of_digit_head x t hx,
      dropSpravaMarker_id_of_digit_head x t hx]
  unfold normalize_case_number
  rw [if_neg hne, hclean]
  exact pySearch_self c hne (matchAt_of_shape c hsh)

theorem normalize_idempotent_witness :
    normalize_case_number "922/4626/23".data = some "922/4626/23".data :=
  normalize_idempotent "№ 922/4626/23 ".data "922/4626/23".data (by decide)

end OpenDataBot
